import Mathlib

/-
  Verification development for the quote-generation rule engine and the
  auto-tuning engine of the smart-offertgenerator backend.

  The definitions below are shallow embeddings of the Python source:
    * backend/app/rules_eval.py       (RulesEvaluator: tokenize, shunting yard, RPN evaluation)
    * backend/app/rule_evaluator.py   (legacy RuleEvaluator: textual division check, result range validation)
    * backend/app/main.py             (auto_generate_quote item loop and inline tuning applier,
                                       log_quantity_changes comparison guard)
    * backend/app/tuning.py           (TuningHelper: adjustment logging, rolling-median statistics,
                                       insight confidence tiers)
    * backend/app/auto_tuning.py      (AutoTuningEngine: pattern updates and its own applier)
    * backend/app/crud.py             (delete_tuning_stat)

  Python Decimal values are modelled as rational numbers.  Decimal arithmetic
  carries 28 significant digits while rationals are exact; none of the
  properties below depends on that difference.  Rounding to two decimals with
  ROUND_HALF_UP (ties away from zero) is modelled exactly by quantize2.
-/

-- The Batteries rational-number operations are irreducible by default, which
-- blocks rfl and decide on concrete pipeline runs; restore reducibility.
set_option allowUnsafeReducibility true
attribute [semireducible] Rat.add Rat.mul Rat.inv Rat.sub Rat.ofScientific Rat.div

/-! ## Token model (rules_eval.py, TokenType and Token) -/

inductive TokenType where
  | NUMBER
  | VARIABLE
  | OPERATOR
  | FUNCTION
  | LEFT_PAREN
  | RIGHT_PAREN
  | COMMA
deriving DecidableEq, Repr

structure Token where
  type : TokenType
  value : String
  position : Nat
deriving DecidableEq, Repr

/-! ## Character classes and the pre-scan whitelist (rules_eval.py, tokenize) -/

-- Characters of the regex class [a-zA-Z0-9_+\-*/()\.,] checked before scanning.
def goodChar (c : Char) : Bool :=
  c.isAlpha || c.isDigit || c == '_' || c == '+' || c == '-' || c == '*' ||
    c == '/' || c == '(' || c == ')' || c == '.' || c == ','

-- Whitespace characters matched by the backslash-s class of the specification.
def isSpaceClassChar (c : Char) : Bool :=
  c == ' ' || c == '\t' || c == '\n' || c == '\r' || c == '\x0b' || c == '\x0c'

-- The character class named by the specification: [0-9a-zA-Z_+\-*/().,] plus whitespace.
def specClassChar (c : Char) : Bool :=
  goodChar c || isSpaceClassChar c

/-
  Python re.match with pattern anchored by a dollar sign accepts either a
  nonempty all-good string or a nonempty all-good string followed by one
  final newline (the dollar anchor matches before a trailing newline).
-/
def regexOk (cs : List Char) : Bool :=
  if cs.all goodChar then !cs.isEmpty
  else
    match cs.getLast? with
    | some ch => (ch == '\n') && cs.dropLast.all goodChar && !cs.dropLast.isEmpty
    | none => false

def isNumChar (c : Char) : Bool := c.isDigit || c == '.'

def isIdentChar (c : Char) : Bool := c.isAlphanum || c == '_'

-- Number strings accepted by the Decimal constructor among digit-and-dot runs:
-- at most one dot and at least one digit.
def validNumber (cs : List Char) : Bool :=
  cs.count '.' ≤ 1 && cs.any (fun c => c.isDigit)

def digitVal (c : Char) : Nat := c.toNat - '0'.toNat

def digitsToNat (cs : List Char) : Nat :=
  cs.foldl (fun acc c => acc * 10 + digitVal c) 0

-- Value of a digit-and-dot number string (integer part plus fractional part).
def parseNumber (cs : List Char) : Option ℚ :=
  if validNumber cs then
    let intPart := cs.takeWhile (fun c => c != '.')
    let fracPart := (cs.dropWhile (fun c => c != '.')).drop 1
    some ((digitsToNat intPart : ℚ) + (digitsToNat fracPart : ℚ) / ((10 : ℚ) ^ fracPart.length))
  else none

/-! ## Tokenizer (rules_eval.py, RulesEvaluator.tokenize)

  The scanning loop advances by at least one character per step; it is written
  with a fuel argument (initialised to length + 1, hence never exhausted) so
  that it is structurally recursive and computes by kernel reduction. -/

def FUNCTIONS : List String := ["ceil", "floor", "round", "min", "max", "case"]

def tokenizeFuel : Nat → List Char → Nat → Except String (List Token)
  | 0, _, _ => .error "tokenizer fuel exhausted"
  | _ + 1, [], _ => .ok []
  | fuel + 1, c :: cs, pos =>
    if isNumChar c then
      let run := (c :: cs).takeWhile isNumChar
      let rest := (c :: cs).dropWhile isNumChar
      if validNumber run then
        match tokenizeFuel fuel rest (pos + run.length) with
        | .error e => .error e
        | .ok ts => .ok ({ type := .NUMBER, value := run.asString, position := pos } :: ts)
      else .error ("Invalid number format: " ++ run.asString)
    else if c.isAlpha || c == '_' then
      let run := (c :: cs).takeWhile isIdentChar
      let rest := (c :: cs).dropWhile isIdentChar
      match rest with
      | '(' :: _ =>
        if FUNCTIONS.contains run.asString then
          match tokenizeFuel fuel rest (pos + run.length) with
          | .error e => .error e
          | .ok ts => .ok ({ type := .FUNCTION, value := run.asString, position := pos } :: ts)
        else .error ("Unknown function: " ++ run.asString)
      | _ =>
        match tokenizeFuel fuel rest (pos + run.length) with
        | .error e => .error e
        | .ok ts => .ok ({ type := .VARIABLE, value := run.asString, position := pos } :: ts)
    else if c == '+' || c == '-' || c == '*' || c == '/' then
      match tokenizeFuel fuel cs (pos + 1) with
      | .error e => .error e
      | .ok ts => .ok ({ type := .OPERATOR, value := String.mk [c], position := pos } :: ts)
    else if c == '(' then
      match tokenizeFuel fuel cs (pos + 1) with
      | .error e => .error e
      | .ok ts => .ok ({ type := .LEFT_PAREN, value := String.mk [c], position := pos } :: ts)
    else if c == ')' then
      match tokenizeFuel fuel cs (pos + 1) with
      | .error e => .error e
      | .ok ts => .ok ({ type := .RIGHT_PAREN, value := String.mk [c], position := pos } :: ts)
    else if c == ',' then
      match tokenizeFuel fuel cs (pos + 1) with
      | .error e => .error e
      | .ok ts => .ok ({ type := .COMMA, value := String.mk [c], position := pos } :: ts)
    else .error ("Unexpected character: " ++ String.mk [c])

-- tokenize: strip spaces, check the character whitelist, then scan.
def tokenize (expr : List Char) : Except String (List Token) :=
  let stripped := expr.filter (fun c => c != ' ')
  if regexOk stripped then tokenizeFuel (stripped.length + 1) stripped 0
  else .error "Expression contains invalid characters"

example :
    tokenize "8+2".toList =
      .ok [ { type := .NUMBER, value := "8", position := 0 },
            { type := .OPERATOR, value := "+", position := 1 },
            { type := .NUMBER, value := "2", position := 2 } ] := by
  rfl

/-! ## Shunting yard parser (rules_eval.py, RulesEvaluator._shunting_yard) -/

-- Operator precedence from the OPERATORS table: plus and minus 1, times and divide 2.
def opPrec (s : String) : Nat :=
  if s = "+" then 1
  else if s = "-" then 1
  else if s = "*" then 2
  else if s = "/" then 2
  else 0

-- Pop operators of greater or equal precedence from the operator stack
-- (head of the list is the top of the stack).  Returns the popped tokens in
-- pop order together with the remaining stack.
def popOps (prec : Nat) : List Token → List Token × List Token
  | [] => ([], [])
  | t :: rest =>
    if t.type == .OPERATOR && prec ≤ opPrec t.value then
      let (o, s) := popOps prec rest
      (t :: o, s)
    else ([], t :: rest)

-- Pop tokens to the output until a left parenthesis is on top (the
-- parenthesis itself is left on the stack when present).
def popUntilParen : List Token → List Token × List Token
  | [] => ([], [])
  | t :: rest =>
    if t.type == .LEFT_PAREN then ([], t :: rest)
    else
      let (o, s) := popUntilParen rest
      (t :: o, s)

-- Drain the operator stack at the end of the token stream; a remaining left
-- parenthesis means mismatched parentheses.
def flushStack : List Token → Except String (List Token)
  | [] => .ok []
  | t :: rest =>
    if t.type == .LEFT_PAREN then .error "Mismatched parentheses"
    else
      match flushStack rest with
      | .error e => .error e
      | .ok o => .ok (t :: o)

def shuntingYardGo : List Token → List Token → List Token → Except String (List Token)
  | [], out, stack =>
    match flushStack stack with
    | .error e => .error e
    | .ok rest => .ok (out ++ rest)
  | t :: ts, out, stack =>
    match t.type with
    | .NUMBER => shuntingYardGo ts (out ++ [t]) stack
    | .VARIABLE => shuntingYardGo ts (out ++ [t]) stack
    | .FUNCTION => shuntingYardGo ts out (t :: stack)
    | .OPERATOR =>
      let (popped, stack) := popOps (opPrec t.value) stack
      shuntingYardGo ts (out ++ popped) (t :: stack)
    | .LEFT_PAREN => shuntingYardGo ts out (t :: stack)
    | .RIGHT_PAREN =>
      match popUntilParen stack with
      | (popped, _ :: rest) =>
        -- the left parenthesis is dropped; a function on the new top is popped to output
        match rest with
        | f :: rest2 =>
          if f.type == .FUNCTION then shuntingYardGo ts (out ++ popped ++ [f]) rest2
          else shuntingYardGo ts (out ++ popped) rest
        | [] => shuntingYardGo ts (out ++ popped) []
      | (_, []) => .error "Mismatched parentheses"
    | .COMMA =>
      match popUntilParen stack with
      | (popped, rest) => shuntingYardGo ts (out ++ popped) rest

def shuntingYard (tokens : List Token) : Except String (List Token) :=
  shuntingYardGo tokens [] []

/-! ## RPN evaluator (rules_eval.py, RulesEvaluator._evaluate_rpn)

  Variables are bound to Decimal values or kept as strings (enum tags like
  room_type); a string bound value used in arithmetic is an error. -/

inductive Value where
  | num (q : ℚ)
  | str (s : String)
deriving DecidableEq

abbrev Bindings := List (String × Value)

-- Floor of a rational number (numerator floor-divided by the positive denominator).
def ratFloor (q : ℚ) : ℤ := Int.fdiv q.num q.den

def ratCeil (q : ℚ) : ℤ := -(ratFloor (-q))

-- Decimal quantize to two places with ROUND_HALF_UP: ties round away from zero.
def quantize2 (x : ℚ) : ℚ :=
  if x < 0 then -((ratFloor ((-x) * 100 + 1 / 2) : ℚ) / 100)
  else (ratFloor (x * 100 + 1 / 2) : ℚ) / 100

-- The OPERATORS table: division by zero yields Decimal 0 instead of failing.
def opApply (s : String) (a b : ℚ) : ℚ :=
  if s = "+" then a + b
  else if s = "-" then a - b
  else if s = "*" then a * b
  else if s = "/" then (if b ≠ 0 then a / b else 0)
  else 0

def evalRPNLoop (vars : Bindings) : List Token → List ℚ → Except String (List ℚ)
  | [], stack => .ok stack
  | t :: ts, stack =>
    match t.type with
    | .NUMBER =>
      match parseNumber t.value.toList with
      | some q => evalRPNLoop vars ts (q :: stack)
      | none => .error ("Invalid number format: " ++ t.value)
    | .VARIABLE =>
      match vars.lookup t.value with
      | none => .error ("Undefined variable: " ++ t.value)
      | some (.str _) =>
        .error ("Variable " ++ t.value ++ " is a string and cannot be used in calculations")
      | some (.num q) => evalRPNLoop vars ts (q :: stack)
    | .OPERATOR =>
      match stack with
      | b :: a :: rest => evalRPNLoop vars ts (opApply t.value a b :: rest)
      | _ => .error "Insufficient operands for operator"
    | .FUNCTION =>
      if t.value = "ceil" then
        match stack with
        | x :: rest => evalRPNLoop vars ts ((ratCeil (quantize2 x) : ℚ) :: rest)
        | _ => .error "Insufficient operands for ceil function"
      else if t.value = "floor" then
        match stack with
        | x :: rest => evalRPNLoop vars ts ((ratFloor (quantize2 x) : ℚ) :: rest)
        | _ => .error "Insufficient operands for floor function"
      else if t.value = "round" then
        match stack with
        | x :: rest => evalRPNLoop vars ts (quantize2 x :: rest)
        | _ => .error "Insufficient operands for round function"
      else if t.value = "min" then
        match stack with
        | b :: a :: rest => evalRPNLoop vars ts (min a b :: rest)
        | _ => .error "Insufficient operands for min function"
      else if t.value = "max" then
        match stack with
        | b :: a :: rest => evalRPNLoop vars ts (max a b :: rest)
        | _ => .error "Insufficient operands for max function"
      else if t.value = "case" then
        match stack with
        | b :: a :: cond :: rest =>
          evalRPNLoop vars ts ((if cond ≠ 0 then a else b) :: rest)
        | _ => .error "Insufficient operands for case function"
      else
        -- the Python elif chain has no final else: an unknown function token is skipped
        evalRPNLoop vars ts stack
    | .LEFT_PAREN => evalRPNLoop vars ts stack
    | .RIGHT_PAREN => evalRPNLoop vars ts stack
    | .COMMA => evalRPNLoop vars ts stack

def evalRPN (vars : Bindings) (tokens : List Token) : Except String ℚ :=
  match evalRPNLoop vars tokens [] with
  | .error e => .error e
  | .ok [x] => .ok (quantize2 x)
  | .ok _ => .error "Invalid expression"

-- evaluate: the full pipeline; every internal failure is re-raised wrapped in
-- an expression-evaluation ValueError (rules_eval.py, RulesEvaluator.evaluate).
def evaluate (expr : List Char) (vars : Bindings) : Except String ℚ :=
  match tokenize expr with
  | .error e => .error ("Expression evaluation failed: " ++ e)
  | .ok ts =>
    match shuntingYard ts with
    | .error e => .error ("Expression evaluation failed: " ++ e)
    | .ok rpn =>
      match evalRPN vars rpn with
      | .error e => .error ("Expression evaluation failed: " ++ e)
      | .ok r => .ok r

example : evaluate "8 + 2*areaM2".toList [("areaM2", Value.num (31 / 2))] = .ok 39 := by rfl

example : evaluate "10 / 0".toList [] = .ok 0 := by rfl

example : evaluate "ceil(areaM2 / 10)".toList [("areaM2", Value.num (31 / 2))] = .ok 2 := by rfl

example : evaluate "case(hasPlumbingWork, 6, 0)".toList [("hasPlumbingWork", Value.num 1)] = .ok 6 := by
  rfl

/-! ## Legacy evaluator checks (rule_evaluator.py, RuleEvaluator)

  The legacy RuleEvaluator validates the final result against [0, 100000] and
  rejects expressions whose cleaned text matches the pattern
  slash, optional whitespace, a zero, word boundary. -/

-- RuleEvaluator._validate_result
def validateResult (result : ℚ) : Except String Unit :=
  if result < 0 then .error "Expression results in negative value"
  else if 100000 < result then .error "Expression results in value too large (> 100000)"
  else .ok ()

def isWordChar (c : Char) : Bool := c.isAlphanum || c == '_'

-- Match of the division-by-zero pattern starting right after a slash:
-- optional whitespace, the single digit zero, then a word boundary.
def divZeroAfterSlash (cs : List Char) : Bool :=
  match cs.dropWhile isSpaceClassChar with
  | '0' :: rest =>
    match rest with
    | [] => true
    | c :: _ => !isWordChar c
  | _ => false

-- re.search of the pattern over the whole expression (rule_evaluator.py line 85).
def legacyDivZeroCheck : List Char → Bool
  | [] => false
  | c :: rest => (c == '/' && divZeroAfterSlash rest) || legacyDivZeroCheck rest

example : legacyDivZeroCheck "10 / 0".toList = true := by rfl

example : legacyDivZeroCheck "10/5".toList = false := by rfl

/-! ## Quantity generation loop (main.py, auto_generate_quote)

  Each rule line (item reference, expression) is evaluated; an evaluation
  failure is caught and the item is emitted with quantity zero.  A missing
  catalog price degrades the item to price zero with low confidence. -/

structure GenItem where
  ref : String
  qty : ℚ
  unit_price : ℚ
  line_total : ℚ
  confidence : ℚ
deriving DecidableEq, Repr

structure RuleLine where
  ref : String
  expr : List Char
deriving DecidableEq, Repr

structure PriceInfo where
  unit_price : ℚ
deriving DecidableEq, Repr

-- try: qty = evaluator.evaluate(expression) except ValueError: qty = Decimal 0
def genQty (vars : Bindings) (expr : List Char) : ℚ :=
  match evaluate expr vars with
  | .ok q => q
  | .error _ => 0

def generateItems (vars : Bindings) (priceLookup : String → Option PriceInfo)
    (rules : List RuleLine) : List GenItem :=
  rules.map fun r =>
    let qty := genQty vars r.expr
    match priceLookup r.ref with
    | some p =>
      { ref := r.ref, qty := qty, unit_price := p.unit_price,
        line_total := qty * p.unit_price, confidence := 9 / 10 }
    | none =>
      { ref := r.ref, qty := qty, unit_price := 0, line_total := 0, confidence := 3 / 10 }

/-! ## Tuning statistics (tuning.py, TuningHelper)

  The adjustment log is modelled newest first, matching the query ordered by
  created_at descending; the helper models the entries for one item reference. -/

structure LogEntry where
  old_qty : ℚ
  new_qty : ℚ
deriving DecidableEq, Repr

structure TuningStatRec where
  median_factor : ℚ
  n : ℕ
deriving DecidableEq, Repr

-- Clamp an adjustment factor to [0.8, 1.2] (tuning.py line 67).
def clampFactor (f : ℚ) : ℚ := max (4 / 5) (min (6 / 5) f)

-- tuning.py lines 60-64: factor defaults to 1.0 when the original quantity is zero.
def adjustmentFactor (old_qty new_qty : ℚ) : ℚ :=
  if old_qty = 0 then 1 else new_qty / old_qty

-- TuningHelper._get_recent_adjustments: newest 50 log entries, keeping only
-- those with positive original quantity, each factor clamped.
def recentAdjustments (logs : List LogEntry) : List ℚ :=
  ((logs.take 50).filter fun l => 0 < l.old_qty).map fun l =>
    clampFactor (l.new_qty / l.old_qty)

-- Ascending insertion sort modelling the Python sorted builtin (only the
-- multiset of elements matters for the median).
def insertSorted (a : ℚ) : List ℚ → List ℚ
  | [] => [a]
  | b :: l => if a ≤ b then a :: b :: l else b :: insertSorted a l

def sortAsc : List ℚ → List ℚ
  | [] => []
  | a :: l => insertSorted a (sortAsc l)

-- Median of the sorted factors (tuning.py lines 128-136).
def medianQ (l : List ℚ) : ℚ :=
  let s := sortAsc l
  let n := s.length
  if n % 2 = 0 then (s.getD (n / 2 - 1) 0 + s.getD (n / 2) 0) / 2
  else s.getD (n / 2) 0

-- Keep only the last 50 factors (tuning.py lines 124-125).
def trimWindow (fs : List ℚ) : List ℚ :=
  if 50 < fs.length then fs.drop (fs.length - 50) else fs

-- TuningHelper._update_existing_tuning_stat: append the new factor, keep the
-- last 50, store the median and the window length.
def updateExistingTuningStat (recent : List ℚ) (new_factor : ℚ) : TuningStatRec :=
  { median_factor := medianQ (trimWindow (recent ++ [new_factor])),
    n := (trimWindow (recent ++ [new_factor])).length }

-- TuningHelper.log_adjustment_and_update_tuning for one pattern: the log entry
-- is written first, then the statistics are recomputed from the recent window.
def logAndUpdate (state : List LogEntry × Option TuningStatRec) (old_qty new_qty : ℚ) :
    List LogEntry × Option TuningStatRec :=
  let clamped := clampFactor (adjustmentFactor old_qty new_qty)
  let logs := { old_qty := old_qty, new_qty := new_qty : LogEntry } :: state.1
  match state.2 with
  | some _ => (logs, some (updateExistingTuningStat (recentAdjustments logs) clamped))
  | none => (logs, some { median_factor := clamped, n := 1 })

def runAdjustments (seq : List (ℚ × ℚ)) : List LogEntry × Option TuningStatRec :=
  seq.foldl (fun st p => logAndUpdate st p.1 p.2) ([], none)

def nOf : Option TuningStatRec → ℕ
  | none => 0
  | some r => r.n

-- crud.delete_tuning_stat: remove the stat when present, report whether one was found.
def deleteTuningStat (stat : Option TuningStatRec) : Option TuningStatRec × Bool :=
  (none, stat.isSome)

-- Confidence tier of the insight report (tuning.py, get_tuning_insights lines 226-234).
def insightsConfidence (n : ℕ) : String :=
  if 10 ≤ n then "high" else if 5 ≤ n then "medium" else "low"

-- The inline tuning applier of auto_generate_quote (main.py lines 814-860):
-- apply the clamped median factor only when at least three samples exist,
-- recompute the line total, and report the per-item confidence label.
def applyTuningMainItem (stat : Option TuningStatRec) (item : GenItem) : GenItem × String :=
  match stat with
  | some s =>
    if 3 ≤ s.n then
      let factor := clampFactor s.median_factor
      let qty := item.qty * factor
      ({ item with qty := qty, line_total := qty * item.unit_price },
        if 10 ≤ s.n then "high" else if 5 ≤ s.n then "med" else "low")
    else (item, "low")
  | none => (item, "low")

/-! ## Auto-tuning engine (auto_tuning.py, AutoTuningEngine)

  A second, divergent implementation: patterns store an unclamped weighted
  average and a smoothed confidence score, and its applier gates on the
  smoothed score rather than the sample count. -/

structure AutoPattern where
  adjustment_factor : ℚ
  confidence_score : ℚ
  sample_count : ℕ
deriving DecidableEq, Repr

-- auto_tuning.py lines 122-126: raw factor, no clamping.
def rawFactor (original_qty adjusted_qty : ℚ) : ℚ :=
  if 0 < original_qty then adjusted_qty / original_qty else 1

-- AutoTuningEngine._update_tuning_patterns lines 128-159.
def updateAutoPattern (pattern : Option AutoPattern) (original_qty adjusted_qty : ℚ) :
    AutoPattern :=
  let factor := rawFactor original_qty adjusted_qty
  match pattern with
  | some p =>
    { adjustment_factor :=
        (p.adjustment_factor * (p.sample_count : ℚ) + factor) / ((p.sample_count : ℚ) + 1),
      confidence_score := min (95 / 100) (p.confidence_score + 5 / 100),
      sample_count := p.sample_count + 1 }
  | none =>
    { adjustment_factor := factor, confidence_score := 7 / 10, sample_count := 1 }

structure EngineItem where
  ref : String
  qty : ℚ
  unit_price : ℚ
  line_total : ℚ
  tuning_confidence : Option ℚ := none
  tuning_factor : Option ℚ := none
deriving DecidableEq, Repr

-- AutoTuningEngine.apply_tuning_to_generation lines 163-209: the factor is
-- applied, unclamped, whenever the smoothed confidence score exceeds 0.6.
def applyTuningToGeneration (lookup : String → Option AutoPattern)
    (items : List EngineItem) : List EngineItem :=
  items.map fun item =>
    if item.ref = "" then item
    else
      match lookup item.ref with
      | some p =>
        if 6 / 10 < p.confidence_score then
          let qty := item.qty * p.adjustment_factor
          { item with
            qty := qty
            line_total := qty * item.unit_price
            tuning_confidence := some p.confidence_score
            tuning_factor := some p.adjustment_factor }
        else item
      | none => item

/-! ## Quantity-change comparison (main.py, log_quantity_changes lines 1798-1827)

  The 1 percent relative threshold and all logging happen only under the guard
  that the original quantity is strictly positive. -/

def compareAndLogQty (state : List LogEntry × Option TuningStatRec) (old_qty new_qty : ℚ) :
    List LogEntry × Option TuningStatRec :=
  if 0 < old_qty then
    if (1 / 100 : ℚ) ≤ |new_qty - old_qty| / old_qty then logAndUpdate state old_qty new_qty
    else state
  else state

/-! ## Helper lemmas -/

theorem all_eq_false_of_mem {α : Type _} {p : α → Bool} {l : List α} {c : α}
    (h : c ∈ l) (hc : p c = false) : l.all p = false := by
  cases hall : l.all p
  · rfl
  · exact absurd (List.all_eq_true.mp hall c h) (by simp [hc])

theorem mem_dropLast_or_eq {α : Type _} {l : List α} {c ch : α}
    (hc : c ∈ l) (h : l.getLast? = some ch) : c ∈ l.dropLast ∨ c = ch := by
  induction l with
  | nil => cases hc
  | cons a t ih =>
    cases t with
    | nil =>
      rcases List.mem_singleton.mp hc with rfl
      right
      exact (by simpa using h.symm : ch = c).symm
    | cons b t2 =>
      rw [List.getLast?_cons_cons] at h
      rcases List.mem_cons.mp hc with rfl | hmem
      · left
        simp [List.dropLast]
      · rcases ih hmem h with h1 | h2
        · left
          simp only [List.dropLast]
          exact List.mem_cons_of_mem _ h1
        · right
          exact h2

theorem regexOk_eq_false {cs : List Char} {c : Char}
    (hmem : c ∈ cs) (hgood : goodChar c = false) (hnl : c ≠ '\n') :
    regexOk cs = false := by
  have hall : cs.all goodChar = false := all_eq_false_of_mem hmem hgood
  unfold regexOk
  rw [hall]
  simp only [Bool.false_eq_true, if_false]
  cases hlast : cs.getLast? with
  | none => rfl
  | some ch =>
    by_cases hch : ch = '\n'
    · subst hch
      rcases mem_dropLast_or_eq hmem hlast with h1 | h2
      · have hall2 : cs.dropLast.all goodChar = false := all_eq_false_of_mem h1 hgood
        simp [hall2]
      · exact absurd h2 hnl
    · simp [hch]

theorem quantize2_twoDecimals (x : ℚ) : ∃ z : ℤ, quantize2 x = (z : ℚ) / 100 := by
  unfold quantize2
  by_cases h : x < 0
  · refine ⟨-(ratFloor ((-x) * 100 + 1 / 2)), ?_⟩
    rw [if_pos h]
    push_cast
    ring
  · exact ⟨ratFloor (x * 100 + 1 / 2), by rw [if_neg h]⟩

theorem evalRPN_twoDecimals {vars : Bindings} {ts : List Token} {q : ℚ}
    (h : evalRPN vars ts = .ok q) : ∃ z : ℤ, q = (z : ℚ) / 100 := by
  unfold evalRPN at h
  cases hl : evalRPNLoop vars ts [] with
  | error e => rw [hl] at h; cases h
  | ok s =>
    rw [hl] at h
    match s, h with
    | [x], h =>
      obtain rfl : quantize2 x = q := by injection h
      exact quantize2_twoDecimals x

theorem evaluate_twoDecimals {expr : List Char} {vars : Bindings} {q : ℚ}
    (h : evaluate expr vars = .ok q) : ∃ z : ℤ, q = (z : ℚ) / 100 := by
  unfold evaluate at h
  cases ht : tokenize expr with
  | error e => rw [ht] at h; cases h
  | ok ts =>
    rw [ht] at h
    dsimp only at h
    cases hs : shuntingYard ts with
    | error e => rw [hs] at h; cases h
    | ok rpn =>
      rw [hs] at h
      dsimp only at h
      cases he : evalRPN vars rpn with
      | error e => rw [he] at h; cases h
      | ok r =>
        rw [he] at h
        dsimp only at h
        obtain rfl : r = q := by injection h
        exact evalRPN_twoDecimals he

theorem clampFactor_bounds (f : ℚ) : 4 / 5 ≤ clampFactor f ∧ clampFactor f ≤ 6 / 5 := by
  unfold clampFactor
  refine ⟨le_max_left _ _, max_le (by norm_num) (min_le_left _ _)⟩

theorem mem_insertSorted {a x : ℚ} : ∀ {l : List ℚ}, x ∈ insertSorted a l → x = a ∨ x ∈ l := by
  intro l
  induction l with
  | nil =>
    intro h
    simp [insertSorted] at h
    left
    exact h
  | cons b t ih =>
    intro h
    unfold insertSorted at h
    by_cases hab : a ≤ b
    · rw [if_pos hab] at h
      rcases List.mem_cons.mp h with rfl | h2
      · left; rfl
      · right; exact h2
    · rw [if_neg hab] at h
      rcases List.mem_cons.mp h with rfl | h2
      · right
        exact List.mem_cons_self _ _
      · rcases ih h2 with h3 | h3
        · left; exact h3
        · right; exact List.mem_cons_of_mem _ h3

theorem mem_sortAsc {x : ℚ} : ∀ {l : List ℚ}, x ∈ sortAsc l → x ∈ l := by
  intro l
  induction l with
  | nil => intro h; cases h
  | cons a t ih =>
    intro h
    unfold sortAsc at h
    rcases mem_insertSorted h with rfl | h2
    · exact List.mem_cons_self _ _
    · exact List.mem_cons_of_mem _ (ih h2)

theorem length_insertSorted (a : ℚ) : ∀ l : List ℚ, (insertSorted a l).length = l.length + 1 := by
  intro l
  induction l with
  | nil => rfl
  | cons b t ih =>
    unfold insertSorted
    by_cases hab : a ≤ b
    · rw [if_pos hab]; rfl
    · rw [if_neg hab]
      simp [ih]

theorem length_sortAsc : ∀ l : List ℚ, (sortAsc l).length = l.length := by
  intro l
  induction l with
  | nil => rfl
  | cons a t ih =>
    unfold sortAsc
    rw [length_insertSorted, ih]
    rfl

theorem getD_mem_of_lt {l : List ℚ} {i : ℕ} (h : i < l.length) (d : ℚ) : l.getD i d ∈ l := by
  rw [List.getD_eq_getElem l d h]
  exact List.getElem_mem h

theorem medianQ_bounds {l : List ℚ} {a b : ℚ} (hne : l ≠ [])
    (h : ∀ x ∈ l, a ≤ x ∧ x ≤ b) : a ≤ medianQ l ∧ medianQ l ≤ b := by
  unfold medianQ
  have hlen : (sortAsc l).length = l.length := length_sortAsc l
  have hlpos : 0 < (sortAsc l).length := by
    rw [hlen]
    exact List.length_pos.mpr hne
  by_cases hpar : (sortAsc l).length % 2 = 0
  · rw [if_pos hpar]
    have h1 : (sortAsc l).length / 2 - 1 < (sortAsc l).length := by omega
    have h2 : (sortAsc l).length / 2 < (sortAsc l).length := by omega
    have m1 := h _ (mem_sortAsc (getD_mem_of_lt h1 0))
    have m2 := h _ (mem_sortAsc (getD_mem_of_lt h2 0))
    constructor
    · linarith [m1.1, m2.1]
    · linarith [m1.2, m2.2]
  · rw [if_neg hpar]
    have h2 : (sortAsc l).length / 2 < (sortAsc l).length := by omega
    exact h _ (mem_sortAsc (getD_mem_of_lt h2 0))

theorem recentAdjustments_bounds {logs : List LogEntry} :
    ∀ x ∈ recentAdjustments logs, 4 / 5 ≤ x ∧ x ≤ 6 / 5 := by
  intro x hx
  unfold recentAdjustments at hx
  rcases List.mem_map.mp hx with ⟨l, _, rfl⟩
  exact clampFactor_bounds _

theorem mem_trimWindow {x : ℚ} {fs : List ℚ} (h : x ∈ trimWindow fs) : x ∈ fs := by
  unfold trimWindow at h
  by_cases hlong : 50 < fs.length
  · rw [if_pos hlong] at h
    exact List.mem_of_mem_drop h
  · rwa [if_neg hlong] at h

theorem length_trimWindow (fs : List ℚ) : (trimWindow fs).length = min fs.length 50 := by
  unfold trimWindow
  by_cases hlong : 50 < fs.length
  · rw [if_pos hlong, List.length_drop]
    omega
  · rw [if_neg hlong]
    omega

theorem trimWindow_ne_nil {fs : List ℚ} (h : fs ≠ []) : trimWindow fs ≠ [] := by
  have hpos : 0 < fs.length := List.length_pos.mpr h
  have := length_trimWindow fs
  intro hnil
  rw [hnil] at this
  simp at this
  omega

theorem updateExistingTuningStat_bounds {recent : List ℚ} {new_factor : ℚ}
    (hr : ∀ x ∈ recent, 4 / 5 ≤ x ∧ x ≤ 6 / 5)
    (hn : 4 / 5 ≤ new_factor ∧ new_factor ≤ 6 / 5) :
    4 / 5 ≤ (updateExistingTuningStat recent new_factor).median_factor ∧
      (updateExistingTuningStat recent new_factor).median_factor ≤ 6 / 5 := by
  have hbase : ∀ x ∈ recent ++ [new_factor], 4 / 5 ≤ x ∧ x ≤ 6 / 5 := by
    intro x hx
    rcases List.mem_append.mp hx with h1 | h1
    · exact hr x h1
    · rcases List.mem_singleton.mp h1 with rfl
      exact hn
  exact medianQ_bounds (trimWindow_ne_nil (by simp))
    (fun x hx => hbase x (mem_trimWindow hx))

theorem n_updateExistingTuningStat (recent : List ℚ) (new_factor : ℚ) :
    (updateExistingTuningStat recent new_factor).n = min (recent.length + 1) 50 := by
  show (trimWindow (recent ++ [new_factor])).length = _
  rw [length_trimWindow, List.length_append]
  simp

theorem length_recentAdjustments_of_pos {logs : List LogEntry}
    (h : ∀ e ∈ logs, 0 < e.old_qty) :
    (recentAdjustments logs).length = min 50 logs.length := by
  unfold recentAdjustments
  rw [List.length_map, List.filter_eq_self.mpr, List.length_take]
  intro a ha
  exact decide_eq_true (h a (List.mem_of_mem_take ha))

theorem runAdjustments_append (seq : List (ℚ × ℚ)) (p : ℚ × ℚ) :
    runAdjustments (seq ++ [p]) = logAndUpdate (runAdjustments seq) p.1 p.2 := by
  unfold runAdjustments
  rw [List.foldl_append]
  rfl

-- The sample count stored after a sequence of adjustments whose original
-- quantities are all strictly positive: 0, then 1, then min (length + 1) 50.
def nFormula (k : ℕ) : ℕ :=
  if k = 0 then 0 else if k = 1 then 1 else min (k + 1) 50

theorem runAdjustments_pos_spec (seq : List (ℚ × ℚ)) (h : ∀ p ∈ seq, 0 < p.1) :
    (runAdjustments seq).1.length = seq.length ∧
    (∀ e ∈ (runAdjustments seq).1, 0 < e.old_qty) ∧
    nOf (runAdjustments seq).2 = nFormula seq.length := by
  induction seq using List.reverseRecOn with
  | nil => exact ⟨rfl, fun e he => absurd he (List.not_mem_nil e), rfl⟩
  | append_singleton s p ih =>
    have hs : ∀ q ∈ s, 0 < q.1 := fun q hq => h q (List.mem_append_left _ hq)
    have hp : 0 < p.1 := h p (List.mem_append_right _ (List.mem_singleton_self _))
    obtain ⟨ihlen, ihpos, ihn⟩ := ih hs
    rw [runAdjustments_append]
    unfold logAndUpdate
    cases hstat : (runAdjustments s).2 with
    | none =>
      have hseqnil : s = [] := by
        by_contra hx
        have h1 : 1 ≤ s.length := by
          have := List.length_pos.mpr hx
          omega
        rw [hstat] at ihn
        simp only [nOf] at ihn
        unfold nFormula at ihn
        split_ifs at ihn <;> omega
      subst hseqnil
      dsimp only
      refine ⟨by simp [runAdjustments], ?_, rfl⟩
      intro e he
      rcases List.mem_cons.mp he with rfl | hmem
      · exact hp
      · exact ihpos e hmem
    | some r =>
      have hk : 1 ≤ s.length := by
        by_contra hx
        have : s = [] := by
          have : s.length = 0 := by omega
          exact List.length_eq_zero.mp this
        subst this
        simp [runAdjustments] at hstat
      have hpos2 : ∀ e ∈ ({ old_qty := p.1, new_qty := p.2 : LogEntry } :: (runAdjustments s).1),
          0 < e.old_qty := by
        intro e he
        rcases List.mem_cons.mp he with rfl | hmem
        · exact hp
        · exact ihpos e hmem
      dsimp only
      refine ⟨by simp [ihlen], hpos2, ?_⟩
      simp only [nOf]
      rw [n_updateExistingTuningStat, length_recentAdjustments_of_pos hpos2]
      have hll : ({ old_qty := p.1, new_qty := p.2 : LogEntry } :: (runAdjustments s).1).length
          = s.length + 1 := by simp [ihlen]
      rw [hll]
      simp only [List.length_append, List.length_singleton]
      unfold nFormula
      split_ifs <;> first | omega | contradiction

theorem nFormula_mono {j k : ℕ} (h : j ≤ k) : nFormula j ≤ nFormula k := by
  unfold nFormula
  split_ifs <;> omega

/-! ## Claim theorems -/

/-- C1 counterexample: the claim says evaluating the expression consisting of
ten, slash, zero fails with an arithmetic error and never returns a value; in
the RPN evaluator used by quote generation it instead succeeds and returns 0. -/
theorem C1_div_by_zero_counterexample : evaluate "10 / 0".toList [] = .ok 0 := by rfl

/-- C1 (amended): in the RPN evaluator (rules_eval.py), division with divisor
zero yields Decimal 0 rather than an error: the slash operator applied to any
numerator and divisor 0 returns 0, and the whole pipeline returns 0 for the
expression ten-divided-by-zero.  Only the legacy RuleEvaluator
(rule_evaluator.py) rejects such expressions, via a textual match of slash
followed by a zero literal. -/
theorem C1_div_by_zero_amended :
    (∀ a : ℚ, opApply "/" a 0 = 0) ∧
    evaluate "10 / 0".toList [] = .ok 0 ∧
    legacyDivZeroCheck "10 / 0".toList = true := by
  refine ⟨?_, by rfl, by rfl⟩
  intro a
  simp [opApply]

/-- C2 counterexample: the claim says the tuning applier multiplies a factor
into an item only when the sample count is at least 3 and that the smoothed
confidence score never decides application.  The applier
AutoTuningEngine.apply_tuning_to_generation applies an (unclamped) factor to a
pattern with sample count 1 because its smoothed confidence score 0.7 exceeds
the 0.6 gate: the quantity 8 becomes 16. -/
theorem C2_gate_counterexample :
    ((applyTuningToGeneration
        (fun _ => some { adjustment_factor := 2, confidence_score := 7 / 10, sample_count := 1 })
        [{ ref := "SNICK", qty := 8, unit_price := 100, line_total := 800 }]).map
      EngineItem.qty = [16]) ∧ (16 : ℚ) ≠ 8 ∧ (1 : ℕ) < 3 := by
  refine ⟨by rfl, by norm_num, by norm_num⟩

/-- C2 (amended): the inline applier of auto_generate_quote (main.py) does gate
on the sample count: with a pattern of at least 3 samples it multiplies the
clamped factor into qty and recomputes line_total; with fewer than 3 samples,
or with no pattern, the item passes through unchanged with tier low.  The
engine applier AutoTuningEngine.apply_tuning_to_generation instead gates on the
smoothed confidence score (see the counterexample). -/
theorem C2_gate_amended :
    ∀ (stat : Option TuningStatRec) (item : GenItem),
      (∀ s, stat = some s → 3 ≤ s.n →
          (applyTuningMainItem stat item).1.qty = item.qty * clampFactor s.median_factor ∧
          (applyTuningMainItem stat item).1.line_total =
            item.qty * clampFactor s.median_factor * item.unit_price) ∧
      (∀ s, stat = some s → s.n < 3 → applyTuningMainItem stat item = (item, "low")) ∧
      (stat = none → applyTuningMainItem stat item = (item, "low")) := by
  intro stat item
  refine ⟨?_, ?_, ?_⟩
  · intro s hs h3
    subst hs
    unfold applyTuningMainItem
    dsimp only
    rw [if_pos h3]
    exact ⟨rfl, rfl⟩
  · intro s hs h3
    subst hs
    unfold applyTuningMainItem
    dsimp only
    rw [if_neg (by omega : ¬3 ≤ s.n)]
  · intro hs
    subst hs
    rfl

/-- C2 witness: a pattern with 5 samples and median 1.1 multiplies the clamped
factor into a concrete item and recomputes its line total. -/
theorem C2_gate_witness :
    (applyTuningMainItem (some { median_factor := 11 / 10, n := 5 })
        { ref := "X", qty := 2, unit_price := 10, line_total := 20, confidence := 9 / 10 }).1.qty
      = 2 * clampFactor (11 / 10) ∧
    (applyTuningMainItem (some { median_factor := 11 / 10, n := 5 })
        { ref := "X", qty := 2, unit_price := 10, line_total := 20, confidence := 9 / 10 }).1.line_total
      = 2 * clampFactor (11 / 10) * 10 :=
  (C2_gate_amended (some { median_factor := 11 / 10, n := 5 })
      { ref := "X", qty := 2, unit_price := 10, line_total := 20, confidence := 9 / 10 }).1
    { median_factor := 11 / 10, n := 5 } rfl (by norm_num)

/-- C3 counterexample: the claim says every pattern create and update stores a
factor in [0.8, 1.2].  AutoTuningEngine._update_tuning_patterns stores the raw
unclamped factor: logging original 8 adjusted to 16 creates a pattern whose
factor is 2, outside the interval. -/
theorem C3_clamp_counterexample :
    (updateAutoPattern none 8 16).adjustment_factor = 2 ∧
    ¬((updateAutoPattern none 8 16).adjustment_factor ≤ 6 / 5) := by
  refine ⟨by rfl, by norm_num [updateAutoPattern, rawFactor]⟩

/-- C3 (amended): along the TuningHelper path (tuning.py), the factor computed
from each logged pair is clamped into [0.8, 1.2], and every pattern create and
update along that path stores a median factor in [0.8, 1.2]; the
AutoTuningEngine path stores unclamped factors (see the counterexample). -/
theorem C3_clamp_amended :
    (∀ old_qty new_qty : ℚ,
        4 / 5 ≤ clampFactor (adjustmentFactor old_qty new_qty) ∧
        clampFactor (adjustmentFactor old_qty new_qty) ≤ 6 / 5) ∧
    (∀ (state : List LogEntry × Option TuningStatRec) (old_qty new_qty : ℚ)
        (rec : TuningStatRec),
        (logAndUpdate state old_qty new_qty).2 = some rec →
        4 / 5 ≤ rec.median_factor ∧ rec.median_factor ≤ 6 / 5) := by
  constructor
  · intro old_qty new_qty
    exact clampFactor_bounds _
  · intro state old_qty new_qty rec h
    unfold logAndUpdate at h
    cases hstat : state.2 with
    | none =>
      rw [hstat] at h
      dsimp only at h
      obtain rfl : ({ median_factor := clampFactor (adjustmentFactor old_qty new_qty), n := 1 }
          : TuningStatRec) = rec := by injection h
      exact clampFactor_bounds _
    | some r =>
      rw [hstat] at h
      dsimp only at h
      obtain rfl : updateExistingTuningStat _ _ = rec := by injection h
      exact updateExistingTuningStat_bounds recentAdjustments_bounds (clampFactor_bounds _)

/-- C3 witness: the first logged adjustment from 8 to 10 creates a pattern
whose stored factor lies in [0.8, 1.2]. -/
theorem C3_clamp_witness :
    4 / 5 ≤ ({ median_factor := clampFactor (adjustmentFactor 8 10), n := 1 }
        : TuningStatRec).median_factor ∧
    ({ median_factor := clampFactor (adjustmentFactor 8 10), n := 1 }
        : TuningStatRec).median_factor ≤ 6 / 5 :=
  C3_clamp_amended.2 ([], none) 8 10
    { median_factor := clampFactor (adjustmentFactor 8 10), n := 1 } rfl

/-- C4 counterexample: the claim says evaluate fails with a range error
whenever the result is negative or exceeds 100000.  The pipeline evaluator
performs no such check: zero-minus-five returns -5 and the literal 200000
returns 200000. -/
theorem C4_range_counterexample :
    evaluate "0 - 5".toList [] = .ok (-5) ∧
    evaluate "200000".toList [] = .ok 200000 := by
  exact ⟨by rfl, by rfl⟩

/-- C4 (amended): the RPN pipeline evaluator used by generation returns results
without any range validation (zero-minus-five evaluates to -5); the bound
[0, 100000] is enforced only by the legacy RuleEvaluator._validate_result,
which accepts exactly the results in [0, 100000] and errors on negative or
too-large results. -/
theorem C4_range_amended :
    (∀ r : ℚ,
        (r < 0 → validateResult r = .error "Expression results in negative value") ∧
        (0 ≤ r → r ≤ 100000 → validateResult r = .ok ()) ∧
        (100000 < r →
          validateResult r = .error "Expression results in value too large (> 100000)")) ∧
    evaluate "0 - 5".toList [] = .ok (-5) := by
  refine ⟨?_, by rfl⟩
  intro r
  refine ⟨?_, ?_, ?_⟩
  · intro h
    unfold validateResult
    rw [if_pos h]
  · intro h0 h1
    unfold validateResult
    rw [if_neg (not_lt.mpr h0), if_neg (not_lt.mpr h1)]
  · intro h
    unfold validateResult
    rw [if_neg (not_lt.mpr (by linarith)), if_pos h]

/-- C4 witness: the legacy validator rejects -1 and 200001 and accepts 39. -/
theorem C4_range_witness :
    validateResult (-1) = .error "Expression results in negative value" ∧
    validateResult 200001 = .error "Expression results in value too large (> 100000)" ∧
    validateResult 39 = .ok () :=
  ⟨((C4_range_amended.1 (-1)).1 (by norm_num)),
   ((C4_range_amended.1 200001).2.2 (by norm_num)),
   ((C4_range_amended.1 39).2.1 (by norm_num) (by norm_num))⟩

/-- C5 counterexample: the claim says a pattern with 3 samples has tier
medium.  Both the insight report and the generation applier label sample count
3 as low (their threshold for the middle tier is 5, not 3). -/
theorem C5_tier_counterexample :
    insightsConfidence 3 = "low" ∧
    (applyTuningMainItem (some { median_factor := 11 / 10, n := 3 })
        { ref := "SNICK", qty := 8, unit_price := 100, line_total := 800,
          confidence := 9 / 10 }).2 = "low" ∧
    "low" ≠ "medium" := by
  refine ⟨by rfl, by rfl, by decide⟩

/-- C5 (amended): the confidence tier is the step function of the sample count
with boundaries 5 and 10, identically in the insight report (tuning.py) and in
the generation applier (main.py): below 5 low, from 5 to 9 medium (labelled
med in generation), 10 and above high. -/
theorem C5_tier_amended :
    ∀ n : ℕ,
      ((n < 5 → insightsConfidence n = "low") ∧
       (5 ≤ n → n < 10 → insightsConfidence n = "medium") ∧
       (10 ≤ n → insightsConfidence n = "high")) ∧
      ∀ (f : ℚ) (item : GenItem),
        ((n < 5 → (applyTuningMainItem (some { median_factor := f, n := n }) item).2 = "low") ∧
         (5 ≤ n → n < 10 →
           (applyTuningMainItem (some { median_factor := f, n := n }) item).2 = "med") ∧
         (10 ≤ n → (applyTuningMainItem (some { median_factor := f, n := n }) item).2 = "high")) := by
  intro n
  constructor
  · refine ⟨?_, ?_, ?_⟩
    · intro h
      unfold insightsConfidence
      rw [if_neg (by omega), if_neg (by omega)]
    · intro h1 h2
      unfold insightsConfidence
      rw [if_neg (by omega), if_pos h1]
    · intro h
      unfold insightsConfidence
      rw [if_pos h]
  · intro f item
    refine ⟨?_, ?_, ?_⟩
    · intro h
      unfold applyTuningMainItem
      dsimp only
      by_cases h3 : 3 ≤ n
      · rw [if_pos h3, if_neg (by omega : ¬10 ≤ n), if_neg (by omega : ¬5 ≤ n)]
      · rw [if_neg h3]
    · intro h1 h2
      unfold applyTuningMainItem
      dsimp only
      rw [if_pos (by omega : 3 ≤ n), if_neg (by omega : ¬10 ≤ n), if_pos h1]
    · intro h
      unfold applyTuningMainItem
      dsimp only
      rw [if_pos (by omega : 3 ≤ n), if_pos h]

/-- C5 witness: at sample count 7 the report says medium and generation says
med; at 12 both say high. -/
theorem C5_tier_witness :
    insightsConfidence 7 = "medium" ∧
    (applyTuningMainItem (some { median_factor := 1, n := 7 })
        { ref := "X", qty := 1, unit_price := 1, line_total := 1, confidence := 9 / 10 }).2
      = "med" ∧
    insightsConfidence 12 = "high" :=
  ⟨(C5_tier_amended 7).1.2.1 (by norm_num) (by norm_num),
   ((C5_tier_amended 7).2 1
      { ref := "X", qty := 1, unit_price := 1, line_total := 1, confidence := 9 / 10 }).2.1
     (by norm_num) (by norm_num),
   (C5_tier_amended 12).1.2.2 (by norm_num)⟩

/-- C6: any expression containing a character outside the whitelist class
(letters, digits, underscore, the four operators, parentheses, dot, comma and
whitespace) is rejected by tokenize with the invalid-characters error raised
by the pre-scan regular expression, before any scanning, parsing or
evaluation; the full pipeline then fails with the same error wrapped in the
evaluation failure message, for every binding environment. -/
theorem C6_charlist_thm (expr : List Char)
    (h : ∃ c ∈ expr, specClassChar c = false) :
    tokenize expr = .error "Expression contains invalid characters" ∧
    ∀ vars : Bindings,
      evaluate expr vars =
        .error "Expression evaluation failed: Expression contains invalid characters" := by
  obtain ⟨c, hc, hbad⟩ := h
  rw [specClassChar, Bool.or_eq_false_iff] at hbad
  obtain ⟨hgood, hws⟩ := hbad
  rw [isSpaceClassChar] at hws
  simp only [Bool.or_eq_false_iff, beq_eq_false_iff_ne] at hws
  have hmem : c ∈ expr.filter (fun c => c != ' ') := by
    apply List.mem_filter.mpr
    refine ⟨hc, ?_⟩
    simp [hws.1.1.1.1.1]
  have hreg : regexOk (expr.filter (fun c => c != ' ')) = false :=
    regexOk_eq_false hmem hgood hws.1.1.1.2
  have htok : tokenize expr = .error "Expression contains invalid characters" := by
    unfold tokenize
    simp only [hreg, Bool.false_eq_true, if_false]
  refine ⟨htok, ?_⟩
  intro vars
  unfold evaluate
  rw [htok]
  rfl

/-- C6 witness: a dollar sign is outside the class, so tokenization and the
full pipeline reject the expression one-plus-dollar. -/
theorem C6_charlist_witness :
    tokenize "1+$".toList = .error "Expression contains invalid characters" ∧
    evaluate "1+$".toList [] =
      .error "Expression evaluation failed: Expression contains invalid characters" :=
  ⟨(C6_charlist_thm "1+$".toList ⟨'$', by decide, by decide⟩).1,
   (C6_charlist_thm "1+$".toList ⟨'$', by decide, by decide⟩).2 []⟩

/-- C7 counterexample: the claim says the stored sample count never decreases
across logged-adjustment updates.  After fifty adjustments with original 1 and
one adjustment with original 0 the stored count is 50; one further adjustment
with original 0 pushes another positive entry out of the 50-entry window and
the recomputed count drops to 49. -/
theorem C7_monotonic_counterexample :
    nOf (runAdjustments (List.replicate 50 ((1 : ℚ), (1 : ℚ)) ++ [(0, 1)])).2 = 50 ∧
    nOf (runAdjustments (List.replicate 50 ((1 : ℚ), (1 : ℚ)) ++ [(0, 1), (0, 1)])).2 = 49 := by
  refine ⟨by decide, by decide⟩

/-- C7 (amended): restricted to logged adjustments whose original quantity is
strictly positive (which is what the caller log_quantity_changes guarantees),
the stored sample count never decreases when one more adjustment is logged;
and explicit deletion removes the stat.  Adjustments with non-positive
original quantity can lower the recomputed count once the 50-entry window is
saturated (see the counterexample). -/
theorem C7_monotonic_amended :
    (∀ (seq : List (ℚ × ℚ)) (p : ℚ × ℚ),
        (∀ q ∈ seq ++ [p], 0 < q.1) →
        nOf (runAdjustments seq).2 ≤ nOf (runAdjustments (seq ++ [p])).2) ∧
    (∀ stat : Option TuningStatRec, (deleteTuningStat stat).1 = none) := by
  constructor
  · intro seq p h
    have hs : ∀ q ∈ seq, 0 < q.1 := fun q hq => h q (List.mem_append_left _ hq)
    have h1 := (runAdjustments_pos_spec seq hs).2.2
    have h2 := (runAdjustments_pos_spec (seq ++ [p]) h).2.2
    rw [h1, h2, List.length_append, List.length_singleton]
    exact nFormula_mono (by omega)
  · intro stat
    rfl

/-- C7 witness: logging a second positive-original adjustment does not lower
the stored count. -/
theorem C7_monotonic_witness :
    nOf (runAdjustments [((1 : ℚ), (2 : ℚ))]).2 ≤
      nOf (runAdjustments ([((1 : ℚ), (2 : ℚ))] ++ [(1, 1)])).2 :=
  C7_monotonic_amended.1 [((1 : ℚ), (2 : ℚ))] (1, 1) (by decide)

/-- C8: for every expression and bindings, the pipeline
evaluate(parse(tokenize(e)), bindings) is a total function, and any value it
returns is quantized to exactly two decimal places (an integer number of
hundredths, produced by round-half-up); in particular, with times binding
tighter than plus, the expression eight-plus-two-times-areaM2 with areaM2
bound to 15.5 evaluates to exactly 39.00, and two-plus-three-times-four
evaluates to 14. -/
theorem C8_pipeline_thm :
    (∀ (expr : List Char) (vars : Bindings) (q : ℚ),
        evaluate expr vars = .ok q → ∃ z : ℤ, q = (z : ℚ) / 100) ∧
    evaluate "8 + 2*areaM2".toList [("areaM2", Value.num (31 / 2))] = .ok 39 ∧
    evaluate "2+3*4".toList [] = .ok 14 :=
  ⟨fun _ _ _ h => evaluate_twoDecimals h, by rfl, by rfl⟩

/-- C8 witness: the concrete result 39 is an integer number of hundredths. -/
theorem C8_pipeline_witness : ∃ z : ℤ, (39 : ℚ) = (z : ℚ) / 100 :=
  C8_pipeline_thm.1 "8 + 2*areaM2".toList [("areaM2", Value.num (31 / 2))] 39 (by rfl)

/-- C9: generation does not abort when the evaluation of one item fails: the
generated list always has exactly one item per rule line, and every rule line
whose expression fails to evaluate (for any of the evaluation errors, all
raised as the single wrapped error type) yields its item with quantity 0. -/
theorem C9_nonfatal_thm :
    ∀ (vars : Bindings) (priceLookup : String → Option PriceInfo) (rules : List RuleLine),
      (generateItems vars priceLookup rules).length = rules.length ∧
      ∀ (i : ℕ) (r : RuleLine), rules.get? i = some r →
        (∃ msg, evaluate r.expr vars = .error msg) →
        ∃ item : GenItem,
          (generateItems vars priceLookup rules).get? i = some item ∧ item.qty = 0 := by
  intro vars priceLookup rules
  constructor
  · exact List.length_map _ _
  · intro i r hr hmsg
    obtain ⟨msg, hmsg⟩ := hmsg
    have hq : genQty vars r.expr = 0 := by
      unfold genQty
      rw [hmsg]
    unfold generateItems
    rw [List.get?_map, hr]
    dsimp only [Option.map]
    cases hl : priceLookup r.ref with
    | some p => exact ⟨_, rfl, hq⟩
    | none => exact ⟨_, rfl, hq⟩

/-- C9 witness: with a failing first expression and a well-formed second one,
both items are emitted and the first has quantity 0. -/
theorem C9_nonfatal_witness :
    (generateItems [] (fun _ => none)
        [{ ref := "A", expr := "10 +".toList }, { ref := "B", expr := "2".toList }]).length = 2 ∧
    ∃ item : GenItem,
      (generateItems [] (fun _ => none)
          [{ ref := "A", expr := "10 +".toList }, { ref := "B", expr := "2".toList }]).get? 0
        = some item ∧ item.qty = 0 :=
  ⟨(C9_nonfatal_thm [] (fun _ => none)
      [{ ref := "A", expr := "10 +".toList }, { ref := "B", expr := "2".toList }]).1,
   (C9_nonfatal_thm [] (fun _ => none)
      [{ ref := "A", expr := "10 +".toList }, { ref := "B", expr := "2".toList }]).2
     0 { ref := "A", expr := "10 +".toList } rfl
     ⟨"Expression evaluation failed: Insufficient operands for operator", by rfl⟩⟩

/-- C10: when the original quantity is zero or negative, the quantity-change
comparison of log_quantity_changes appends no log entry and leaves the tuning
statistics unchanged: the whole state passes through untouched, and the one
percent threshold is never evaluated. -/
theorem C10_guard_thm :
    ∀ (state : List LogEntry × Option TuningStatRec) (old_qty new_qty : ℚ),
      old_qty ≤ 0 → compareAndLogQty state old_qty new_qty = state := by
  intro state old_qty new_qty h
  unfold compareAndLogQty
  rw [if_neg (not_lt.mpr h)]

/-- C10 witness: a comparison with original quantity 0 changes nothing. -/
theorem C10_guard_witness : compareAndLogQty ([], none) 0 5 = ([], none) :=
  C10_guard_thm ([], none) 0 5 (by norm_num)
